import Mathlib

/-!
Shallow embedding of src/scrapper_main.py (HackatonAIMobility/Scrapping):
the drip-feed ingestion scheduler, its fetchers (Open-Meteo weather and
Reddit search), the synthetic fallback generator and the delivery client.
Python dictionaries produced by the three record producers are embedded as
one structure with optional fields; HTTP effects are embedded as an explicit
outcome value (response with status and parsed body, or a raised exception),
and Python try/except blocks as computations in Except recovered at the
handler.  Wall-clock instants from time.time() are embedded as integers and
ISO timestamp strings from datetime rendering as an abstract non-empty
rendering of the instant.
-/

namespace Scrapping

/-- The metadata sub-dictionary attached by SyntheticGenerator.generar_uno. -/
structure Metadata where
  tipo : String
  prioridad : String
deriving DecidableEq, Repr

/-- A record dictionary.  The three producers populate different subsets of
keys, so keys not set by every producer are optional: weather records carry
condicion and temperatura, Reddit records carry autor, texto and url, and
synthetic records carry autor, texto and metadata. -/
structure Record where
  fuente : String
  autor : Option String
  texto : Option String
  timestamp : Option String
  url : Option String
  condicion : Option String
  temperatura : Option ℚ
  metadata : Option Metadata
deriving DecidableEq, Repr

/-- Outcome of one HTTP request as seen by the Python caller: either a
response with a status code and a (parsed) body, or an exception raised by
the requests library (timeout, connection error). -/
inductive HttpOutcome (β : Type) where
  | response (status : Nat) (body : β)
  | exn (cause : String)
deriving DecidableEq, Repr

/-- Result of parsing a response body: either the shape the code reads, or a
malformed body on which res.json() or the subsequent key accesses raise. -/
inductive BodyParse (α : Type) where
  | ok (val : α)
  | malformed
deriving DecidableEq, Repr

/-- The current_weather object of the Open-Meteo response body. -/
structure CurrentWeather where
  weathercode : Int
  temperatura : ℚ
deriving DecidableEq, Repr

/-- One child of the Reddit search response.  A child is wellFormed when the
keys author, title, created_utc and permalink that get_reddit reads are all
present; otherwise the key access raises inside the loop. -/
inductive ChildParse where
  | wellFormed (author : String) (title : String) (created_utc : Nat) (permalink : String)
  | malformed
deriving DecidableEq, Repr

/-- Abstract embedding of datetime.fromtimestamp(t).isoformat(): some
rendering of the instant t into a string. -/
def fromtimestamp_iso (t : Nat) : String :=
  toString t

/-- Embedding of the Python substring test `needle in hay`. -/
def contiene (hay needle : String) : Bool :=
  decide (needle.toList <:+: hay.toList)

/-- SyntheticGenerator.lineas. -/
def lineas : List String :=
  ["Línea 1", "Línea 2", "Línea 3", "Línea 7", "Línea 9", "Línea B", "Línea 12"]

/-- SyntheticGenerator.problemas. -/
def problemas : List String :=
  ["humo", "marcha lenta", "retraso 5 min", "andén lleno", "frenado de emergencia", "avance fluido"]

/-- SyntheticGenerator.estaciones. -/
def estaciones : List String :=
  ["Pantitlán", "Hidalgo", "Centro Médico", "Chabacano", "Tacubaya", "Zócalo", "Guerrero", "Bellas Artes"]

/-- One draw of the ambient random source consumed by generar_uno: an index
into each of the three vocabularies and the number drawn by
random.randint(1000, 9999) for the author name. -/
structure SynthDraw where
  linea : Fin 7
  problema : Fin 6
  estacion : Fin 8
  userNum : Nat
deriving DecidableEq, Repr

/-- SyntheticGenerator.generar_uno, with the random draws and the current
instant rendering made explicit arguments. -/
def generar_uno (d : SynthDraw) (now : String) : Record :=
  let linea := lineas.getD d.linea.val ""
  let problema := problemas.getD d.problema.val ""
  let estacion := estaciones.getD d.estacion.val ""
  { fuente := "Simulacion_Usuario"
    autor := some ("user_" ++ toString d.userNum)
    texto := some ("Reporte " ++ linea ++ " en " ++ estacion ++ ": " ++ problema ++ " #MetroCDMX")
    timestamp := some now
    url := none
    condicion := none
    temperatura := none
    metadata := some { tipo := "Sintetico"
                       prioridad := if contiene problema "humo" then "Alta" else "Baja" } }

/-- The record built by IngestionService.get_weather from a parsed body. -/
def weatherRecord (cw : CurrentWeather) (now : String) : Record :=
  { fuente := "Open-Meteo"
    autor := none
    texto := none
    timestamp := some now
    url := none
    condicion := some (if cw.weathercode ≥ 51 then "Lluvia" else "Nublado/Seco")
    temperatura := some cw.temperatura
    metadata := none }

/-- The body of the try block of IngestionService.get_weather: error is a
raised Python exception (requests raising, or res.json() and the key
accesses raising on a malformed body); a non-200 status falls through to
the final return None without raising. -/
def get_weather_body (h : HttpOutcome (BodyParse CurrentWeather)) (now : String) :
    Except String (Option Record) :=
  match h with
  | .exn cause => .error cause
  | .response status body =>
    if status = 200 then
      match body with
      | .malformed => .error "json"
      | .ok cw => .ok (some (weatherRecord cw now))
    else .ok none

/-- IngestionService.get_weather: the try body with the bare except clause
swallowing every exception and falling through to return None. -/
def get_weather (h : HttpOutcome (BodyParse CurrentWeather)) (now : String) : Option Record :=
  match get_weather_body h now with
  | .ok v => v
  | .error _ => none

/-- The record appended for one well-formed Reddit child. -/
def redditRecord (author title : String) (created_utc : Nat) (permalink : String) : Record :=
  { fuente := "Reddit"
    autor := some author
    texto := some (title.take 200)
    timestamp := some (fromtimestamp_iso created_utc)
    url := some ("https://reddit.com" ++ permalink)
    condicion := none
    temperatura := none
    metadata := none }

/-- The normalization loop of get_reddit: builds the extracted list in
order; the first malformed child raises (KeyError) and aborts the loop,
discarding everything appended so far. -/
def normalize_children : List ChildParse → Except String (List Record)
  | [] => .ok []
  | .malformed :: _ => .error "KeyError"
  | .wellFormed a t cu pl :: rest =>
    match normalize_children rest with
    | .ok acc => .ok (redditRecord a t cu pl :: acc)
    | .error e => .error e

/-- The body of the try block of IngestionService.get_reddit.  A missing
data or children key degrades to an empty children list without raising, so
that case is carried by BodyParse.ok with an empty list; BodyParse.malformed
is a body on which res.json() itself raises. -/
def get_reddit_body (h : HttpOutcome (BodyParse (List ChildParse))) :
    Except String (List Record) :=
  match h with
  | .exn cause => .error cause
  | .response status body =>
    if status = 200 then
      match body with
      | .malformed => .error "json"
      | .ok children => normalize_children children
    else .ok []

/-- IngestionService.get_reddit: the try body with the except clause that
logs and falls through to return the empty list. -/
def get_reddit (h : HttpOutcome (BodyParse (List ChildParse))) : List Record :=
  match get_reddit_body h with
  | .ok v => v
  | .error _ => []

/-- Classification of one delivery attempt by enviar_uno, read off from its
print branches. -/
inductive DeliveryOutcome where
  | Delivered
  | Rejected (body : String)
  | ServerError (status : Nat)
  | ConnectionFailed (cause : String)
deriving DecidableEq, Repr

/-- enviar_uno: one POST of the wrapped record; the branch on the status
code, with the except clause turning any raised exception into the
connection-error branch.  The function makes exactly one request per call
and no branch retries. -/
def enviar_uno (h : HttpOutcome String) : DeliveryOutcome :=
  match h with
  | .exn cause => .ConnectionFailed cause
  | .response status body =>
    if status = 200 ∨ status = 201 then .Delivered
    else if status = 422 then .Rejected body
    else .ServerError status

/-- The mutable state of iniciar_modo_goteo across ticks: the buffer queue
cola_de_envio and the cooldown timestamp ultimo_refresco_reddit.  Wall-clock
instants from time.time() are embedded as integers. -/
structure DripState where
  cola : List Record
  ultimo_refresco : Int
deriving DecidableEq, Repr

/-- The environment of one iteration of the drip loop: the value of
time.time() at the top of the iteration, the ISO rendering of the current
instant used by now_iso_format calls in this iteration, the outcomes of the
two HTTP fetches were they performed, and the random draws were the
synthetic fallback invoked. -/
structure TickInput where
  ahora : Int
  nowStr : String
  weather : HttpOutcome (BodyParse CurrentWeather)
  reddit : HttpOutcome (BodyParse (List ChildParse))
  synth : SynthDraw
deriving Repr

/-- INTERVALO_REDDIT: the cooldown for external API calls, in seconds. -/
def INTERVALO_REDDIT : Int := 60

/-- Phase A of the drip loop (producer phase): when the cooldown has
elapsed, fetch Reddit and weather, append the weather record when present
and then extend with the Reddit records, and set the cooldown timestamp to
ahora regardless of the fetch outcomes. -/
def refill (s : DripState) (inp : TickInput) : DripState :=
  if inp.ahora - s.ultimo_refresco > INTERVALO_REDDIT then
    { cola := (s.cola ++ (get_weather inp.weather inp.nowStr).toList) ++ get_reddit inp.reddit
      ultimo_refresco := inp.ahora }
  else s

/-- Phase B of the drip loop (fallback phase): when the queue is empty,
generate one synthetic record and append it. -/
def fallback (s : DripState) (inp : TickInput) : DripState :=
  match s.cola with
  | [] => { s with cola := [generar_uno inp.synth inp.nowStr] }
  | _ :: _ => s

/-- The timestamp overwrite between the pop and the hand-off: when the
record has a timestamp key, set it to the current instant. -/
def actualizar_timestamp (r : Record) (now : String) : Record :=
  if r.timestamp.isSome then { r with timestamp := some now } else r

/-- One iteration of the drip loop, phases A to D: refill, fallback,
pop index 0 and overwrite the timestamp, and hand the record to enviar_uno.
Returns the state left for the next iteration and the record handed to
enviar_uno; none embeds the IndexError branch of pop on an empty list,
which the generic except clause of the loop absorbs without delivering. -/
def tick (s : DripState) (inp : TickInput) : DripState × Option Record :=
  let s2 := fallback (refill s inp) inp
  match s2.cola with
  | [] => (s2, none)
  | d :: rest => ({ s2 with cola := rest }, some (actualizar_timestamp d inp.nowStr))

/-- The records appended to the queue by phase A of one iteration, in
append order: the weather record when present, then the Reddit records;
nothing when the cooldown has not elapsed. -/
def refillAppends (s : DripState) (inp : TickInput) : List Record :=
  if inp.ahora - s.ultimo_refresco > INTERVALO_REDDIT then
    (get_weather inp.weather inp.nowStr).toList ++ get_reddit inp.reddit
  else []

/-- The records appended during one iteration including the fallback record
when phase A left the queue empty. -/
def tickAppends (s : DripState) (inp : TickInput) : List Record :=
  match s.cola ++ refillAppends s inp with
  | [] => refillAppends s inp ++ [generar_uno inp.synth inp.nowStr]
  | _ :: _ => refillAppends s inp

/-- The record popped (before the timestamp overwrite) during one
iteration: the head of the queue after phases A and B. -/
def tickPopped (s : DripState) (inp : TickInput) : List Record :=
  match (fallback (refill s inp) inp).cola with
  | [] => []
  | d :: _ => [d]

/-- The state after running the drip loop over a list of tick
environments. -/
def runFinal (s : DripState) : List TickInput → DripState
  | [] => s
  | inp :: rest => runFinal (tick s inp).1 rest

/-- The records appended to the queue over a run, in append order. -/
def runArrivals (s : DripState) : List TickInput → List Record
  | [] => []
  | inp :: rest => tickAppends s inp ++ runArrivals (tick s inp).1 rest

/-- The records popped from the queue over a run, in pop order. -/
def runPopped (s : DripState) : List TickInput → List Record
  | [] => []
  | inp :: rest => tickPopped s inp ++ runPopped (tick s inp).1 rest

/-- The values of time.time() at which the real fetches fire over a run,
in order. -/
def runFetchTimes (s : DripState) : List TickInput → List Int
  | [] => []
  | inp :: rest =>
    (if inp.ahora - s.ultimo_refresco > INTERVALO_REDDIT then [inp.ahora] else [])
      ++ runFetchTimes (tick s inp).1 rest

/-- Modelled from the spec: turbo mode.  No turbo-mode scheduler is present
under src/ (src/scrapper_main.py implements only drip mode); the state is
the tick counter and the two cache slots of §3 of the spec: cachedWeather
and cachedReddit, overwritten wholesale on every refresh cycle. -/
structure TurboState where
  tickCount : Nat
  cachedWeather : Option Record
  cachedReddit : List Record
deriving DecidableEq, Repr

/-- Modelled from the spec: the environment of one turbo tick — the current
instant rendering, the two fetch outcomes were the refresh boundary
reached, and the synthetic draws consumed by the batch of this tick. -/
structure TurboInput where
  nowStr : String
  weather : HttpOutcome (BodyParse CurrentWeather)
  reddit : HttpOutcome (BodyParse (List ChildParse))
  draws : Nat → SynthDraw

/-- Modelled from the spec: generateBatch(count) of SyntheticGenerator —
count independent draws of generateOne. -/
def generar_lote (n : Nat) (ds : Nat → SynthDraw) (now : String) : List Record :=
  (List.range n).map (fun i => generar_uno (ds i) now)

/-- Modelled from the spec: the refresh-boundary ratio N of turbo mode
(default 30, so that N times the inter-tick interval equals the refresh
interval). -/
def TURBO_N : Nat := 30

/-- Modelled from the spec: the per-tick synthetic batch size of turbo mode
(default 5). -/
def TURBO_BATCH : Nat := 5

/-- Modelled from the spec: the refresh step of a turbo tick — every N
ticks call SourceFetcher and overwrite the caches wholesale; a weather
fetch that returns absent leaves the previous weather cache in place, while
the social cache becomes whatever the fetch returned, including empty. -/
def turbo_refresh (s : TurboState) (inp : TurboInput) : TurboState :=
  if s.tickCount % TURBO_N = 0 then
    { s with
      cachedWeather :=
        match get_weather inp.weather inp.nowStr with
        | some w => some w
        | none => s.cachedWeather
      cachedReddit := get_reddit inp.reddit }
  else s

/-- Modelled from the spec: the payload assembled each turbo tick — a
timestamp-refreshed copy of the cached weather record when present, then
the full cached social list unchanged, then a freshly generated synthetic
batch. -/
def turbo_payload (s : TurboState) (inp : TurboInput) : List Record :=
  (s.cachedWeather.map (fun w => { w with timestamp := some inp.nowStr })).toList
    ++ s.cachedReddit
    ++ generar_lote TURBO_BATCH inp.draws inp.nowStr

/-- Modelled from the spec: one turbo tick — refresh at the boundary,
assemble and deliver the payload as one batch, increment the tick
counter. -/
def turbo_tick (s : TurboState) (inp : TurboInput) : TurboState × List Record :=
  let s1 := turbo_refresh s inp
  ({ s1 with tickCount := s1.tickCount + 1 }, turbo_payload s1 inp)

theorem fallback_cola_ne_nil (s : DripState) (inp : TickInput) :
    (fallback s inp).cola ≠ [] := by
  unfold fallback
  split <;> simp_all

theorem fallback_ultimo (s : DripState) (inp : TickInput) :
    (fallback s inp).ultimo_refresco = s.ultimo_refresco := by
  unfold fallback
  split <;> rfl

theorem phaseB_eq (s : DripState) (inp : TickInput) :
    (fallback (refill s inp) inp).cola = s.cola ++ tickAppends s inp := by
  unfold refill fallback tickAppends refillAppends
  by_cases hf : inp.ahora - s.ultimo_refresco > INTERVALO_REDDIT
  · simp only [if_pos hf, List.append_assoc]
    cases h : s.cola ++ ((get_weather inp.weather inp.nowStr).toList ++ get_reddit inp.reddit) with
    | nil =>
      rcases List.append_eq_nil.mp h with ⟨h1, h2⟩
      rcases List.append_eq_nil.mp h2 with ⟨h3, h4⟩
      simp [h1, h3, h4]
    | cons d rest => simp [h]
  · simp only [if_neg hf, List.append_nil]
    cases h : s.cola with
    | nil => simp [h]
    | cons d rest => simp [h]

theorem tick_of_phaseB (s : DripState) (inp : TickInput) (d : Record) (rest : List Record)
    (h : (fallback (refill s inp) inp).cola = d :: rest) :
    (tick s inp).1.cola = rest
      ∧ (tick s inp).2 = some (actualizar_timestamp d inp.nowStr)
      ∧ tickPopped s inp = [d]
      ∧ (tick s inp).1.ultimo_refresco = (refill s inp).ultimo_refresco := by
  simp [tick, tickPopped, h, fallback_ultimo]

theorem phaseB_head (s : DripState) (inp : TickInput) :
    ∃ d rest, (fallback (refill s inp) inp).cola = d :: rest := by
  cases h : (fallback (refill s inp) inp).cola with
  | nil => exact absurd h (fallback_cola_ne_nil _ _)
  | cons d rest => exact ⟨d, rest, rfl⟩

theorem tick_ultimo (s : DripState) (inp : TickInput) :
    (tick s inp).1.ultimo_refresco = (refill s inp).ultimo_refresco := by
  obtain ⟨d, rest, h⟩ := phaseB_head s inp
  exact (tick_of_phaseB s inp d rest h).2.2.2

theorem run_fifo_invariant (inps : List TickInput) :
    ∀ s : DripState,
      s.cola ++ runArrivals s inps = runPopped s inps ++ (runFinal s inps).cola := by
  induction inps with
  | nil => intro s; simp [runArrivals, runPopped, runFinal]
  | cons inp rest ih =>
    intro s
    obtain ⟨d, rest2, h⟩ := phaseB_head s inp
    obtain ⟨hc, _, hp, _⟩ := tick_of_phaseB s inp d rest2 h
    have hkey : s.cola ++ tickAppends s inp = d :: rest2 := (phaseB_eq s inp).symm.trans h
    have ih2 := ih (tick s inp).1
    rw [hc] at ih2
    simp only [runArrivals, runPopped, runFinal]
    rw [← List.append_assoc, hkey, hp]
    simp only [List.cons_append, List.singleton_append, List.append_assoc]
    rw [ih2]
    simp

theorem runFetchTimes_chain (inps : List TickInput) :
    ∀ s : DripState,
      List.Chain' (fun a b => b - a > INTERVALO_REDDIT)
        (s.ultimo_refresco :: runFetchTimes s inps) := by
  induction inps with
  | nil => intro s; simp [runFetchTimes]
  | cons inp rest ih =>
    intro s
    by_cases hf : inp.ahora - s.ultimo_refresco > INTERVALO_REDDIT
    · have hu : (tick s inp).1.ultimo_refresco = inp.ahora := by
        rw [tick_ultimo]
        unfold refill
        rw [if_pos hf]
      simp only [runFetchTimes, if_pos hf, List.singleton_append]
      rw [List.chain'_cons]
      refine ⟨hf, ?_⟩
      have h2 := ih (tick s inp).1
      rw [hu] at h2
      exact h2
    · have hu : (tick s inp).1.ultimo_refresco = s.ultimo_refresco := by
        rw [tick_ultimo]
        unfold refill
        rw [if_neg hf]
      simp only [runFetchTimes, if_neg hf, List.nil_append]
      have h2 := ih (tick s inp).1
      rw [hu] at h2
      exact h2

theorem normalize_children_timestamp (cs : List ChildParse) :
    ∀ l, normalize_children cs = Except.ok l → ∀ r ∈ l, r.timestamp.isSome = true := by
  induction cs with
  | nil =>
    intro l h r hr
    simp only [normalize_children, Except.ok.injEq] at h
    subst h
    cases hr
  | cons c rest ih =>
    intro l h r hr
    cases c with
    | malformed => simp [normalize_children] at h
    | wellFormed a t cu pl =>
      simp only [normalize_children] at h
      cases hrec : normalize_children rest with
      | error e => rw [hrec] at h; simp at h
      | ok acc =>
        rw [hrec] at h
        simp only [Except.ok.injEq] at h
        subst h
        rcases List.mem_cons.mp hr with hr1 | hr2
        · subst hr1; rfl
        · exact ih acc hrec r hr2

theorem get_reddit_body_timestamp (h : HttpOutcome (BodyParse (List ChildParse))) :
    ∀ l, get_reddit_body h = Except.ok l → ∀ r ∈ l, r.timestamp.isSome = true := by
  intro l hl r hr
  cases h with
  | exn e => simp [get_reddit_body] at hl
  | response st body =>
    simp only [get_reddit_body] at hl
    by_cases hst : st = 200
    · rw [if_pos hst] at hl
      cases body with
      | malformed => simp at hl
      | ok cs => exact normalize_children_timestamp cs l hl r hr
    · rw [if_neg hst] at hl
      simp only [Except.ok.injEq] at hl
      subst hl
      cases hr

theorem get_reddit_timestamp (h : HttpOutcome (BodyParse (List ChildParse))) :
    ∀ r ∈ get_reddit h, r.timestamp.isSome = true := by
  intro r hr
  unfold get_reddit at hr
  cases hb : get_reddit_body h with
  | ok l =>
    rw [hb] at hr
    exact get_reddit_body_timestamp h l hb r hr
  | error e =>
    rw [hb] at hr
    cases hr

theorem get_weather_timestamp (h : HttpOutcome (BodyParse CurrentWeather)) (now : String) :
    ∀ r, get_weather h now = some r → r.timestamp.isSome = true := by
  intro r hr
  cases h with
  | exn e => simp [get_weather, get_weather_body] at hr
  | response st body =>
    simp only [get_weather, get_weather_body] at hr
    by_cases hst : st = 200
    · rw [if_pos hst] at hr
      cases body with
      | malformed => simp at hr
      | ok cw =>
        simp only [Option.some.injEq] at hr
        subst hr
        rfl
    · rw [if_neg hst] at hr
      simp at hr

theorem tickAppends_timestamp (s : DripState) (inp : TickInput) :
    ∀ r ∈ tickAppends s inp, r.timestamp.isSome = true := by
  have hcore : ∀ x ∈ refillAppends s inp, x.timestamp.isSome = true := by
    intro x hx
    unfold refillAppends at hx
    by_cases hf : inp.ahora - s.ultimo_refresco > INTERVALO_REDDIT
    · rw [if_pos hf] at hx
      rcases List.mem_append.mp hx with h1 | h2
      · exact get_weather_timestamp _ _ x (Option.mem_def.mp (Option.mem_toList.mp h1))
      · exact get_reddit_timestamp _ x h2
    · rw [if_neg hf] at hx
      cases hx
  intro r hr
  unfold tickAppends at hr
  cases hq : s.cola ++ refillAppends s inp with
  | nil =>
    simp only [hq] at hr
    rcases List.mem_append.mp hr with h1 | h2
    · exact hcore r h1
    · rw [List.mem_singleton.mp h2]
      rfl
  | cons d rest =>
    simp only [hq] at hr
    exact hcore r hr

theorem append_left_ne_empty (s t : String) (hs : s ≠ "") : s ++ t ≠ "" := by
  intro h
  apply hs
  have hl := congrArg String.length h
  rw [String.length_append, String.length_empty] at hl
  have h0 : s.length = 0 := by omega
  cases s with
  | mk data =>
    cases data with
    | nil => rfl
    | cons c cs => rw [String.length_mk] at h0; simp at h0

/-- A sample fallback draw for concrete evaluations. -/
def draw0 : SynthDraw := { linea := 0, problema := 0, estacion := 0, userNum := 1234 }

/-- A sample tick environment in which both fetches raise and the cooldown
has elapsed. -/
def inp0 : TickInput :=
  { ahora := 100
    nowStr := "2026-10-12T00:00:00"
    weather := .exn "timeout"
    reddit := .exn "timeout"
    synth := draw0 }

/-- A second sample tick environment, 50 seconds after inp0. -/
def inp1 : TickInput :=
  { ahora := 150
    nowStr := "2026-10-12T00:00:50"
    weather := .exn "timeout"
    reddit := .exn "timeout"
    synth := draw0 }

/-- The initial drip state: empty queue, cooldown timestamp zero. -/
def dripS0 : DripState := { cola := [], ultimo_refresco := 0 }

/-- C1: in drip mode, on every tick and for every sequence of fetch
outcomes, the queue is non-empty at the moment of the pop: whenever the
queue is empty after the refresh check, the fallback phase appends exactly
one synthetic record before the pop, so the empty-queue error branch of
the pop is unreachable. -/
theorem C1_pop_never_on_empty_buffer (s : DripState) (inp : TickInput) :
    1 ≤ (fallback (refill s inp) inp).cola.length
      ∧ ((refill s inp).cola = [] →
          (fallback (refill s inp) inp).cola = [generar_uno inp.synth inp.nowStr])
      ∧ (tick s inp).2 ≠ none := by
  refine ⟨?_, ?_, ?_⟩
  · cases hc : (fallback (refill s inp) inp).cola with
    | nil => exact absurd hc (fallback_cola_ne_nil _ _)
    | cons d rest => simp
  · intro h
    simp [fallback, h]
  · obtain ⟨d, rest, h⟩ := phaseB_head s inp
    obtain ⟨_, h2, _, _⟩ := tick_of_phaseB s inp d rest h
    rw [h2]
    simp

/-- Witness for C1 at a concrete state and tick environment: both fetches
fail, the queue was empty, and the tick still pops a (synthetic) record. -/
theorem C1_pop_never_on_empty_buffer_witness :
    (fallback (refill dripS0 inp0) inp0).cola = [generar_uno inp0.synth inp0.nowStr]
      ∧ (tick dripS0 inp0).2 ≠ none :=
  ⟨(C1_pop_never_on_empty_buffer dripS0 inp0).2.1 (by decide),
   (C1_pop_never_on_empty_buffer dripS0 inp0).2.2⟩

/-- C2: the drip queue is consumed strictly oldest-first.  Over any run the
append stream equals the popped stream followed by the final queue, so the
popped (and hence handed-off) sequence is a prefix of the append sequence:
records appended earlier are handed to enviar_uno strictly earlier.  Each
tick removes exactly the head (index 0) of the queue and hands exactly that
record, timestamp-rewritten, to enviar_uno. -/
theorem C2_fifo_order :
    (∀ (s : DripState) (inps : List TickInput),
        s.cola ++ runArrivals s inps = runPopped s inps ++ (runFinal s inps).cola)
      ∧ (∀ (s : DripState) (inp : TickInput),
          ∃ d rest, (fallback (refill s inp) inp).cola = d :: rest
            ∧ tickPopped s inp = [d]
            ∧ (tick s inp).1.cola = rest
            ∧ (tick s inp).2 = some (actualizar_timestamp d inp.nowStr)) := by
  constructor
  · intro s inps
    exact run_fifo_invariant inps s
  · intro s inp
    obtain ⟨d, rest, h⟩ := phaseB_head s inp
    obtain ⟨hc, hd, hp, _⟩ := tick_of_phaseB s inp d rest h
    exact ⟨d, rest, h, hp, hc, hd⟩

/-- C3: every external fetch failure is swallowed inside the fetching
function and degrades to the documented empty value: get_weather returns
none on a raised request, a non-200 status or a malformed body, and
whenever its try body raises the except clause converts the outcome to
none; get_reddit likewise returns the empty list, so neither function ever
propagates an exception to the caller. -/
theorem C3_failures_swallowed :
    (∀ cause now, get_weather (.exn cause) now = none)
      ∧ (∀ status body now, status ≠ 200 → get_weather (.response status body) now = none)
      ∧ (∀ now, get_weather (.response 200 .malformed) now = none)
      ∧ (∀ h now cause, get_weather_body h now = .error cause → get_weather h now = none)
      ∧ (∀ cause, get_reddit (.exn cause) = [])
      ∧ (∀ status body, status ≠ 200 → get_reddit (.response status body) = [])
      ∧ (get_reddit (.response 200 .malformed) = [])
      ∧ (∀ h cause, get_reddit_body h = .error cause → get_reddit h = []) := by
  refine ⟨fun cause now => rfl, ?_, fun now => rfl, ?_, fun cause => rfl, ?_, rfl, ?_⟩
  · intro status body now hst
    simp [get_weather, get_weather_body, hst]
  · intro h now cause hbody
    simp [get_weather, hbody]
  · intro status body hst
    simp [get_reddit, get_reddit_body, hst]
  · intro h cause hbody
    simp [get_reddit, hbody]

/-- Witness for C3 at concrete failing fetch outcomes: a 500 status with a
parseable weather body still degrades to none, and a Reddit fetch whose
body raises degrades to the empty list. -/
theorem C3_failures_swallowed_witness :
    ((500 : Nat) ≠ 200
        ∧ get_weather (.response 500 (.ok { weathercode := 61, temperatura := 20 })) "t" = none)
      ∧ (get_reddit_body (.exn "timeout") = .error "timeout"
          ∧ get_reddit (.exn "timeout") = []) :=
  ⟨⟨by decide,
    C3_failures_swallowed.2.1 500 (.ok { weathercode := 61, temperatura := 20 }) "t" (by decide)⟩,
   ⟨rfl, C3_failures_swallowed.2.2.2.2.2.2.2 (.exn "timeout") "timeout" rfl⟩⟩

/-- C4 counterexample: 202 is a 2xx status, yet enviar_uno classifies it as
a generic server error rather than Delivered, because the success branch
tests membership in [200, 201] and not the whole 2xx range. -/
theorem C4_counterexample_202 :
    enviar_uno (.response 202 "") = .ServerError 202
      ∧ 200 ≤ 202 ∧ 202 < 300
      ∧ enviar_uno (.response 202 "") ≠ .Delivered := by
  refine ⟨rfl, by decide, by decide, by decide⟩

/-- C4 amended: enviar_uno classifies every attempt into exactly one of the
four outcomes determined solely by the HTTP result — Delivered exactly when
the status is 200 or 201 (not for every 2xx), Rejected with the response
body exactly when the status is 422, ServerError for every other status,
and ConnectionFailed when the request raises; no branch retries. -/
theorem C4_amended_classification :
    (∀ status body,
        enviar_uno (.response status body) = .Delivered ↔ (status = 200 ∨ status = 201))
      ∧ (∀ status body,
          enviar_uno (.response status body) = .Rejected body ↔
            (¬(status = 200 ∨ status = 201) ∧ status = 422))
      ∧ (∀ status body, ¬(status = 200 ∨ status = 201) → status ≠ 422 →
          enviar_uno (.response status body) = .ServerError status)
      ∧ (∀ cause, enviar_uno (.exn cause) = .ConnectionFailed cause) := by
  refine ⟨?_, ?_, ?_, fun cause => rfl⟩
  · intro status body
    by_cases h1 : status = 200 ∨ status = 201
    · simp [enviar_uno, h1]
    · by_cases h2 : status = 422
      · simp [enviar_uno, h1, h2]
      · simp [enviar_uno, h1, h2]
  · intro status body
    by_cases h1 : status = 200 ∨ status = 201
    · simp [enviar_uno, h1]
    · by_cases h2 : status = 422
      · simp [enviar_uno, h1, h2]
      · simp [enviar_uno, h1, h2]
  · intro status body h1 h2
    simp [enviar_uno, h1, h2]

/-- Witness for the amended C4 at concrete statuses: 201 is Delivered, 422
is Rejected with the body surfaced, 500 is a server error, and a raised
request is a connection failure. -/
theorem C4_amended_classification_witness :
    enviar_uno (.response 201 "ok") = .Delivered
      ∧ enviar_uno (.response 422 "field data unrecognized") = .Rejected "field data unrecognized"
      ∧ enviar_uno (.response 500 "boom") = .ServerError 500
      ∧ enviar_uno (.exn "refused") = .ConnectionFailed "refused" :=
  ⟨(C4_amended_classification.1 201 "ok").mpr (by decide),
   (C4_amended_classification.2.1 422 "field data unrecognized").mpr (by decide),
   C4_amended_classification.2.2.1 500 "boom" (by decide) (by decide),
   C4_amended_classification.2.2.2 "refused"⟩

/-- C5: in drip mode, successive real fetches are separated by strictly
more than INTERVALO_REDDIT (60) seconds of wall clock, for every sequence
of tick instants (no monotonicity of the clock is even required), and the
cooldown timestamp is set to the tick instant immediately after every fetch
attempt regardless of the fetch outcomes, while ticks that do not fetch
leave it unchanged. -/
theorem C5_refresh_cooldown :
    (∀ (s : DripState) (inps : List TickInput),
        List.Chain' (fun a b => b - a > INTERVALO_REDDIT) (runFetchTimes s inps))
      ∧ (∀ (s : DripState) (inp : TickInput),
          inp.ahora - s.ultimo_refresco > INTERVALO_REDDIT →
            (tick s inp).1.ultimo_refresco = inp.ahora)
      ∧ (∀ (s : DripState) (inp : TickInput),
          ¬inp.ahora - s.ultimo_refresco > INTERVALO_REDDIT →
            (tick s inp).1.ultimo_refresco = s.ultimo_refresco) := by
  refine ⟨?_, ?_, ?_⟩
  · intro s inps
    exact (runFetchTimes_chain inps s).tail
  · intro s inp hf
    rw [tick_ultimo]
    unfold refill
    rw [if_pos hf]
  · intro s inp hf
    rw [tick_ultimo]
    unfold refill
    rw [if_neg hf]

/-- Witness for C5: a concrete two-tick run in which the first tick fetches
at instant 100 and the second tick, 50 seconds later, is still inside the
cooldown; the fetch-time chain holds and the cooldown timestamp behaves as
stated even though both fetches failed. -/
theorem C5_refresh_cooldown_witness :
    List.Chain' (fun a b => b - a > INTERVALO_REDDIT) (runFetchTimes dripS0 [inp0, inp1])
      ∧ (tick dripS0 inp0).1.ultimo_refresco = inp0.ahora
      ∧ (tick (tick dripS0 inp0).1 inp1).1.ultimo_refresco = (tick dripS0 inp0).1.ultimo_refresco :=
  ⟨C5_refresh_cooldown.1 dripS0 [inp0, inp1],
   C5_refresh_cooldown.2.1 dripS0 inp0 (by decide),
   C5_refresh_cooldown.2.2 (tick dripS0 inp0).1 inp1 (by decide)⟩

/-- C6: when the weather fetch succeeds with a parseable body, the record
has condicion "Lluvia" exactly when the weathercode is at least 51 and
"Nublado/Seco" exactly otherwise, and carries the raw temperature value of
the response unchanged. -/
theorem C6_weather_mapping (cw : CurrentWeather) (now : String) :
    ∃ r, get_weather (.response 200 (.ok cw)) now = some r
      ∧ (r.condicion = some "Lluvia" ↔ cw.weathercode ≥ 51)
      ∧ (r.condicion = some "Nublado/Seco" ↔ ¬cw.weathercode ≥ 51)
      ∧ r.temperatura = some cw.temperatura := by
  have hne : ("Lluvia" : String) ≠ "Nublado/Seco" := by decide
  refine ⟨weatherRecord cw now, rfl, ?_, ?_, rfl⟩
  · by_cases h : cw.weathercode ≥ 51
    · simp [weatherRecord, h]
    · simp [weatherRecord, h, hne.symm]
  · by_cases h : cw.weathercode ≥ 51
    · simp [weatherRecord, h, hne]
    · simp [weatherRecord, h]

/-- C7: every record produced by generar_uno has its required fields
non-empty, its priority is exactly Alta or Baja, and it is Alta exactly
when the drawn problem text contains the keyword humo; the generator is
total on every draw from its finite vocabularies.  The timestamp is
whatever now_iso_format produced, assumed non-empty in the hypothesis. -/
theorem C7_synthetic_shape (d : SynthDraw) (now : String) (hnow : now ≠ "") :
    (generar_uno d now).fuente ≠ ""
      ∧ (∃ a, (generar_uno d now).autor = some a ∧ a ≠ "")
      ∧ (∃ t, (generar_uno d now).texto = some t ∧ t ≠ "")
      ∧ (∃ ts, (generar_uno d now).timestamp = some ts ∧ ts ≠ "")
      ∧ (∃ m, (generar_uno d now).metadata = some m
            ∧ (m.prioridad = "Alta" ∨ m.prioridad = "Baja")
            ∧ (m.prioridad = "Alta" ↔ contiene (problemas.getD d.problema.val "") "humo" = true)) := by
  have hBA : ("Baja" : String) ≠ "Alta" := by decide
  have hprio : ∃ m, (generar_uno d now).metadata = some m
      ∧ m.prioridad
          = (if contiene (problemas.getD d.problema.val "") "humo" then "Alta" else "Baja") :=
    ⟨_, rfl, rfl⟩
  obtain ⟨m, hm, hp⟩ := hprio
  refine ⟨?_, ⟨"user_" ++ toString d.userNum, rfl, ?_⟩, ⟨_, rfl, ?_⟩,
    ⟨now, rfl, hnow⟩, ⟨m, hm, ?_, ?_⟩⟩
  · show ("Simulacion_Usuario" : String) ≠ ""
    decide
  · exact append_left_ne_empty _ _ (by decide)
  · exact append_left_ne_empty _ _ (append_left_ne_empty _ _ (append_left_ne_empty _ _
      (append_left_ne_empty _ _ (append_left_ne_empty _ _ (append_left_ne_empty _ _
        (by decide))))))
  · rw [hp]
    by_cases hb : contiene (problemas.getD d.problema.val "") "humo" = true
    · left; rw [if_pos hb]
    · right; rw [if_neg hb]
  · rw [hp]
    by_cases hb : contiene (problemas.getD d.problema.val "") "humo" = true
    · rw [if_pos hb]; exact iff_of_true rfl hb
    · rw [if_neg hb]; exact iff_of_false hBA hb

/-- Witness for C7 at a concrete draw and instant. -/
theorem C7_synthetic_shape_witness :
    ("2026-10-12T00:00:00" : String) ≠ ""
      ∧ ((generar_uno draw0 "2026-10-12T00:00:00").fuente ≠ ""
          ∧ (∃ a, (generar_uno draw0 "2026-10-12T00:00:00").autor = some a ∧ a ≠ "")
          ∧ (∃ t, (generar_uno draw0 "2026-10-12T00:00:00").texto = some t ∧ t ≠ "")
          ∧ (∃ ts, (generar_uno draw0 "2026-10-12T00:00:00").timestamp = some ts ∧ ts ≠ "")
          ∧ (∃ m, (generar_uno draw0 "2026-10-12T00:00:00").metadata = some m
                ∧ (m.prioridad = "Alta" ∨ m.prioridad = "Baja")
                ∧ (m.prioridad = "Alta" ↔
                    contiene (problemas.getD draw0.problema.val "") "humo" = true))) :=
  ⟨by decide, C7_synthetic_shape draw0 "2026-10-12T00:00:00" (by decide)⟩

/-- C8: on every drip tick whose incoming queue satisfies the (invariant)
property that every queued record has a timestamp key, the popped head is
handed to enviar_uno with its timestamp overwritten to the current instant
and all other fields unchanged, and the property is preserved for the next
tick; since all three producers set the key, delivered records carry their
emission time. -/
theorem C8_timestamp_overwritten (s : DripState) (inp : TickInput)
    (hts : ∀ r ∈ s.cola, r.timestamp.isSome = true) :
    (∃ d rest, (fallback (refill s inp) inp).cola = d :: rest
        ∧ (tick s inp).2 = some { d with timestamp := some inp.nowStr }
        ∧ (tick s inp).1.cola = rest)
      ∧ (∀ r ∈ (tick s inp).1.cola, r.timestamp.isSome = true) := by
  obtain ⟨d, rest, h⟩ := phaseB_head s inp
  obtain ⟨hc, hd, _, _⟩ := tick_of_phaseB s inp d rest h
  have hall : ∀ r ∈ (fallback (refill s inp) inp).cola, r.timestamp.isSome = true := by
    intro r hr
    rw [phaseB_eq] at hr
    rcases List.mem_append.mp hr with h1 | h2
    · exact hts r h1
    · exact tickAppends_timestamp s inp r h2
  have hd_ts : d.timestamp.isSome = true := hall d (by rw [h]; exact List.mem_cons_self _ _)
  refine ⟨⟨d, rest, h, ?_, hc⟩, ?_⟩
  · rw [hd]
    unfold actualizar_timestamp
    rw [if_pos hd_ts]
  · intro r hr
    rw [hc] at hr
    exact hall r (by rw [h]; exact List.mem_cons_of_mem _ hr)

/-- Witness for C8 starting from the empty queue. -/
theorem C8_timestamp_overwritten_witness :
    (∀ r ∈ dripS0.cola, r.timestamp.isSome = true)
      ∧ ((∃ d rest, (fallback (refill dripS0 inp0) inp0).cola = d :: rest
            ∧ (tick dripS0 inp0).2 = some { d with timestamp := some inp0.nowStr }
            ∧ (tick dripS0 inp0).1.cola = rest)
          ∧ (∀ r ∈ (tick dripS0 inp0).1.cola, r.timestamp.isSome = true)) :=
  ⟨by simp [dripS0], C8_timestamp_overwritten dripS0 inp0 (by simp [dripS0])⟩

/-- C9: each turbo tick delivers one batch made of a timestamp-refreshed
copy of the cached weather record when present, the full cached social list
unchanged, and a fresh synthetic batch of 5 records; the caches are
overwritten wholesale only on boundary ticks (tick counter mod 30 = 0), and
between boundaries the cached real records are re-delivered unchanged
except for the weather timestamp.  Proved against the spec-modelled turbo
scheduler, as no turbo mode exists under src/. -/
theorem C9_turbo_mode (s : TurboState) (inp : TurboInput) :
    ((turbo_tick s inp).2
        = ((turbo_refresh s inp).cachedWeather.map
              (fun w => { w with timestamp := some inp.nowStr })).toList
            ++ (turbo_refresh s inp).cachedReddit
            ++ generar_lote TURBO_BATCH inp.draws inp.nowStr)
      ∧ (generar_lote TURBO_BATCH inp.draws inp.nowStr).length = 5
      ∧ (turbo_tick s inp).1.tickCount = (turbo_refresh s inp).tickCount + 1
      ∧ (s.tickCount % TURBO_N ≠ 0 →
          (turbo_tick s inp).1.cachedWeather = s.cachedWeather
            ∧ (turbo_tick s inp).1.cachedReddit = s.cachedReddit
            ∧ (turbo_tick s inp).2
                = (s.cachedWeather.map (fun w => { w with timestamp := some inp.nowStr })).toList
                    ++ s.cachedReddit
                    ++ generar_lote TURBO_BATCH inp.draws inp.nowStr)
      ∧ (s.tickCount % TURBO_N = 0 →
          (turbo_tick s inp).1.cachedReddit = get_reddit inp.reddit) := by
  refine ⟨rfl, by simp [generar_lote, TURBO_BATCH], rfl, ?_, ?_⟩
  · intro h
    unfold turbo_tick turbo_payload turbo_refresh
    rw [if_neg h]
    exact ⟨rfl, rfl, rfl⟩
  · intro h
    unfold turbo_tick turbo_refresh
    rw [if_pos h]

/-- Witness for C9: a non-boundary tick (counter 7) re-delivers the caches
unchanged except for the weather timestamp, and a boundary tick (counter 0)
overwrites the social cache with the fetch result. -/
theorem C9_turbo_mode_witness :
    ((7 : Nat) % TURBO_N ≠ 0
        ∧ (turbo_tick { tickCount := 7, cachedWeather := none, cachedReddit := [] }
              { nowStr := "t", weather := .exn "x", reddit := .exn "x", draws := fun _ => draw0 }).1.cachedWeather
            = none)
      ∧ ((0 : Nat) % TURBO_N = 0
          ∧ (turbo_tick { tickCount := 0, cachedWeather := none, cachedReddit := [] }
                { nowStr := "t", weather := .exn "x", reddit := .exn "x", draws := fun _ => draw0 }).1.cachedReddit
              = get_reddit (.exn "x")) :=
  ⟨⟨by decide,
    (C9_turbo_mode { tickCount := 7, cachedWeather := none, cachedReddit := [] }
        { nowStr := "t", weather := .exn "x", reddit := .exn "x", draws := fun _ => draw0 }).2.2.2.1
      (by decide) |>.1⟩,
   ⟨by decide,
    (C9_turbo_mode { tickCount := 0, cachedWeather := none, cachedReddit := [] }
        { nowStr := "t", weather := .exn "x", reddit := .exn "x", draws := fun _ => draw0 }).2.2.2.2
      (by decide)⟩⟩

theorem normalize_children_error (cs : List ChildParse) (h : ChildParse.malformed ∈ cs) :
    ∃ cause, normalize_children cs = Except.error cause := by
  induction cs with
  | nil => cases h
  | cons c rest ih =>
    cases c with
    | malformed => exact ⟨"KeyError", rfl⟩
    | wellFormed a t cu pl =>
      have h2 : ChildParse.malformed ∈ rest := by
        rcases List.mem_cons.mp h with h1 | h1
        · simp at h1
        · exact h1
      obtain ⟨cause, hcause⟩ := ih h2
      refine ⟨cause, ?_⟩
      simp only [normalize_children, hcause]

/-- C10: the social fetch is all-or-nothing: if any child of a 200 response
is malformed, the normalization loop raises there, the already-normalized
prefix is discarded, and get_reddit returns the empty list — never a proper
non-empty prefix of the response. -/
theorem C10_reddit_all_or_nothing (cs : List ChildParse)
    (h : ChildParse.malformed ∈ cs) :
    get_reddit (.response 200 (.ok cs)) = []
      ∧ ∃ cause, get_reddit_body (.response 200 (.ok cs)) = Except.error cause := by
  obtain ⟨cause, hcause⟩ := normalize_children_error cs h
  have hb : get_reddit_body (.response 200 (.ok cs)) = Except.error cause := by
    simp [get_reddit_body, hcause]
  exact ⟨by simp [get_reddit, hb], cause, hb⟩

/-- Witness for C10: a response whose first child is well-formed and whose
second is malformed yields the empty list, not the singleton prefix. -/
theorem C10_reddit_all_or_nothing_witness :
    ChildParse.malformed ∈ [ChildParse.wellFormed "ana" "titulo" 0 "/r/x", ChildParse.malformed]
      ∧ (get_reddit (.response 200 (.ok [ChildParse.wellFormed "ana" "titulo" 0 "/r/x",
            ChildParse.malformed])) = []
          ∧ ∃ cause, get_reddit_body (.response 200 (.ok [ChildParse.wellFormed "ana" "titulo" 0 "/r/x",
              ChildParse.malformed])) = Except.error cause) :=
  ⟨by decide,
   C10_reddit_all_or_nothing [ChildParse.wellFormed "ana" "titulo" 0 "/r/x", ChildParse.malformed]
     (by decide)⟩

end Scrapping
